import Mathlib

/-!
Verification of the lightdash excerpt: the query-results React hooks
(pagination aggregation, dispatch, date-zoom tracking, cache keys, retry
configuration) and the Google Drive spreadsheet export client (cell
formatting, error translation, tab creation, sheet clearing, header
labelling). Each definition is a shallow embedding of the corresponding
TypeScript source; JavaScript runtime behaviours (truthiness, Array.join,
String.includes, Array.indexOf-based sorting) are modelled explicitly.
-/

/-- Primitive JavaScript values that occur in result cells. -/
inductive Prim
  | str (s : String)
  | num (n : Int)
  | boolean (b : Bool)
deriving DecidableEq

/-- JavaScript runtime values as they reach `GoogleDriveClient.formatCell`:
primitives, null and undefined, arrays, boxed primitive wrappers (the
results of `new Number`, `new Boolean`, `new String`), RegExp instances,
Set instances, Date instances (their rendering kept as an opaque payload),
and plain objects. -/
inductive JsValue
  | prim (p : Prim)
  | nullv
  | undefValue
  | arr (xs : List JsValue)
  | boxed (p : Prim)
  | regexp (src : String)
  | jsSet (xs : List JsValue)
  | date (rendering : String)
  | obj (fields : List (String × JsValue))

mutual

/-- Element conversion performed by JavaScript `Array.prototype.join`:
null and undefined become the empty string, other values their string
conversion (nested arrays recursively join with a comma). -/
def jsToStringForJoin : JsValue → String
  | .prim (.str s) => s
  | .prim (.num n) => toString n
  | .prim (.boolean b) => if b then "true" else "false"
  | .nullv => ""
  | .undefValue => ""
  | .boxed (.str s) => s
  | .boxed (.num n) => toString n
  | .boxed (.boolean b) => if b then "true" else "false"
  | .regexp s => "/" ++ s ++ "/"
  | .jsSet _ => "[object Set]"
  | .date r => r
  | .obj _ => "[object Object]"
  | .arr xs => jsJoinList xs
termination_by v => sizeOf v

/-- Model of JavaScript `array.join(',')` over the elements. -/
def jsJoinList : List JsValue → String
  | [] => ""
  | [x] => jsToStringForJoin x
  | x :: y :: xs => jsToStringForJoin x ++ "," ++ jsJoinList (y :: xs)
termination_by xs => sizeOf xs

end

/-- Truthiness of an optional JavaScript string: undefined and the empty
string are falsy. -/
def truthyOptStr : Option String → Bool
  | none => false
  | some s => s ≠ ""

/-- Truthiness of an optional JavaScript number: undefined and 0 are falsy. -/
def truthyOptNat : Option Nat → Bool
  | none => false
  | some n => n ≠ 0

/-- Character-list prefix test used to model `String.prototype.includes`. -/
def listIsPrefixOf : List Char → List Char → Bool
  | [], _ => true
  | _ :: _, [] => false
  | a :: as, b :: bs => a = b && listIsPrefixOf as bs

/-- Substring occurrence at any position of the haystack. -/
def jsIncludesAux (needle : List Char) : List Char → Bool
  | [] => listIsPrefixOf needle []
  | c :: cs => listIsPrefixOf needle (c :: cs) || jsIncludesAux needle cs

/-- Model of JavaScript `haystack.includes(needle)` on strings. -/
def jsIncludes (haystack needle : String) : Bool :=
  jsIncludesAux needle.data haystack.data

/-- Dimension types from the shared package; only DATE is inspected by the
export client (`item.type === DimensionType.DATE`). -/
inductive DimensionType
  | date
  | timestamp
  | string
  | number
  | boolean
deriving DecidableEq

/-- Items of the field/item map passed to the export client: a `Field` is a
dimension or a metric (`isField` is true exactly for these); only dimensions
carry a `timeInterval`. Table calculations and custom dimensions are not
fields. -/
inductive Item
  | dimension (dtype : DimensionType) (timeInterval : Option String)
  | metric (mtype : DimensionType)
  | tableCalculation
  | customDimension
deriving DecidableEq

/-- Model of `isField(item)` for an optional item. -/
def isFieldItem : Option Item → Bool
  | some (.dimension _ _) => true
  | some (.metric _) => true
  | _ => false

/-- Model of `isField(item) && item.type === DimensionType.DATE`. -/
def isDateField : Option Item → Bool
  | some (.dimension t _) => t = DimensionType.date
  | some (.metric t) => t = DimensionType.date
  | _ => false

/-- Model of `isDimension(item) ? item.timeInterval : undefined`. -/
def itemTimeInterval : Option Item → Option String
  | some (.dimension _ ti) => ti
  | _ => none

/-- Modelled from the spec: functions imported from the shared
`lightdash/common` package whose source is not part of this repository —
`formatDate` (the time-interval-aware date formatter), JSON serialization of
plain objects and of metric queries, and item label derivation
(`getItemLabel`, `getItemLabelWithoutTableName`). They are kept as
parameters of the embedding; every theorem quantifies over them. -/
structure ExternalFns where
  formatDate : JsValue → Option String → String
  jsonStringify : List (String × JsValue) → String
  getItemLabel : Item → String
  getItemLabelWithoutTableName : Item → String
  stringifyMetricQuery : List String → String

/-- Concrete instantiation of the external functions, used to evaluate the
embedding on concrete inputs. -/
def defaultFns : ExternalFns where
  formatDate := fun v ti => "date:" ++ jsToStringForJoin v ++ ":" ++ ti.getD ""
  jsonStringify := fun kvs => toString kvs.length
  getItemLabel := fun _ => "label"
  getItemLabelWithoutTableName := fun _ => "shortLabel"
  stringifyMetricQuery := fun fs => String.intercalate "|" fs

/-- Values for which `formatCell` returns before reaching the date-field
check: arrays, RegExp instances and Set instances. -/
def formatCellEarlyReturn : JsValue → Bool
  | .arr _ => true
  | .regexp _ => true
  | .jsSet _ => true
  | _ => false

/-- Embedding of `GoogleDriveClient.formatCell`: arrays and sets join with
commas, RegExp yields its source, values of date-typed fields go through the
external date formatter with the dimension's time interval, boxed primitive
wrappers unwrap via `valueOf`, remaining truthy non-Date objects are JSON
serialized, and everything else is returned unchanged. -/
def formatCell (env : ExternalFns) (value : JsValue) (item : Option Item) : JsValue :=
  match value with
  | .arr xs => .prim (.str (jsJoinList xs))
  | .regexp s => .prim (.str s)
  | .jsSet xs => .prim (.str (jsJoinList xs))
  | v =>
    if isDateField item then
      .prim (.str (env.formatDate v (itemTimeInterval item)))
    else
      match v with
      | .boxed p => .prim p
      | .obj kvs => .prim (.str (env.jsonStringify kvs))
      | other => other

/-- Error shape of a failed Google API request as the client inspects it:
`status` is both `err.response.status` and `err.code` (gaxios sets both to
the HTTP status; a non-HTTP failure has neither), `errorCode` and
`errorDescription` come from `err.response.data`, and `messages` is the
`err.errors[i].message` array attached by the googleapis client. -/
structure RawProviderError where
  status : Option Nat
  errorCode : Option String
  errorDescription : Option String
  messages : List String
deriving DecidableEq

/-- Errors thrown by the Google Drive client: translated Lightdash errors
(Forbidden, transient, missing config, unexpected) and re-thrown raw
provider errors. -/
inductive GDriveError
  | forbidden (msg : String)
  | transient
  | missingConfig (msg : String)
  | unexpectedSheets (msg : String)
  | provider (e : RawProviderError)
deriving DecidableEq

/-- JavaScript `error.code` as read by `createNewTab`'s catch handler: only
a re-thrown raw provider error carries a numeric `code`; the Lightdash error
classes define no such property, so reading it yields undefined. -/
def GDriveError.jsCode : GDriveError → Option Nat
  | .provider e => e.status
  | _ => none

/-- JavaScript `error.errors` message array as read by `createNewTab`'s
catch handler; undefined (empty) on the Lightdash error classes. -/
def GDriveError.jsMessages : GDriveError → List String
  | .provider e => e.messages
  | _ => []

/-- Embedding of `GoogleDriveClient.catchForbiddenError`: a 401 response
becomes a ForbiddenError, a 400 response whose error code is
`invalid_grant` becomes a ForbiddenError, and every other failure is
re-thrown unchanged. -/
def catchForbiddenError {α : Type} : Except RawProviderError α → Except GDriveError α
  | .ok a => .ok a
  | .error e =>
    if e.status = some 401 then
      .error (.forbidden ("Failed to authorize: " ++ e.errorCode.getD "undefined" ++ ": "
        ++ e.errorDescription.getD "undefined"))
    else if e.status = some 400 ∧ e.errorCode = some "invalid_grant" then
      .error (.forbidden ("Failed to refresh token: " ++ e.errorCode.getD "undefined" ++ ": "
        ++ e.errorDescription.getD "undefined"))
    else
      .error (.provider e)

/-- Model of `tabName.replaceAll(':', '.')`. -/
def sanitizeTabName (s : String) : String :=
  String.mk (s.data.map (fun c => if c = ':' then '.' else c))

/-- Condition of the first branch of `createNewTab`'s catch handler:
`error.code === 400 && error?.errors[0]?.message.includes(tabName)`. -/
def tabExistsBranch (e : GDriveError) (tabName : String) : Bool :=
  (e.jsCode == some 400) &&
    (match e.jsMessages.head? with
      | some m => jsIncludes m tabName
      | none => false)

/-- Embedding of `GoogleDriveClient.createNewTab`, parameterized by the
provider's response to the `batchUpdate` addSheet request. The wrapped
request goes through `catchForbiddenError`, and its `.catch` handler logs
and swallows a 400 whose message mentions the tab (tab already exists),
re-throws a 500 as `GoogleSheetsTransientError`, and silently swallows
every other failure (including the translated ForbiddenError, which carries
no `code` property). -/
def createNewTab (isEnabled : Bool) (tabName : String)
    (batchUpdateResp : Except RawProviderError Unit) : Except GDriveError String :=
  if !isEnabled then .error (.missingConfig "Google Drive is not enabled")
  else
    match catchForbiddenError batchUpdateResp with
    | .ok _ => .ok (sanitizeTabName tabName)
    | .error e =>
      if tabExistsBranch e tabName then .ok (sanitizeTabName tabName)
      else if e.jsCode = some 500 then .error .transient
      else .ok (sanitizeTabName tabName)

/-- Provider operations issued by the export flow, recorded for the frame
conditions. -/
inductive ProviderOp
  | addSheet (title : String)
  | getSpreadsheet
  | clearValues (range : String)
  | updateValues (range : String) (values : List (List JsValue))

/-- Outcome of `clearTabName`: the provider operations it issued and
whether its catch-all handler logged a swallowed failure. The function
itself never throws. -/
structure ClearOutcome where
  ops : List ProviderOp
  loggedClearError : Bool

/-- Embedding of the try-block of `GoogleDriveClient.clearTabName`: with no
tab name it fetches the spreadsheet to find the first sheet's title (a
missing or empty title is an UnexpectedGoogleSheetsError) and clears that
range, otherwise it clears the named tab's range; each request goes through
`catchForbiddenError`. Returns the thrown error, if any, together with the
operations issued. `getSpreadsheetResp` carries the first sheet's title as
the client reads it (`spreadsheet.data.sheets?.[0].properties?.title`). -/
def clearTabNameInner (tabName : Option String)
    (getSpreadsheetResp : Except RawProviderError (Option String))
    (clearResp : Except RawProviderError Unit) :
    Except GDriveError Unit × List ProviderOp :=
  match tabName with
  | none =>
    (match catchForbiddenError getSpreadsheetResp with
      | .error e => (.error e, [.getSpreadsheet])
      | .ok firstSheetName =>
        if truthyOptStr firstSheetName then
          match catchForbiddenError clearResp with
          | .ok _ => (.ok (), [.getSpreadsheet, .clearValues (firstSheetName.getD "")])
          | .error e => (.error e, [.getSpreadsheet, .clearValues (firstSheetName.getD "")])
        else
          (.error (.unexpectedSheets "Unable to find the first sheet name in the spreadsheet"),
            [.getSpreadsheet]))
  | some t =>
    (match catchForbiddenError clearResp with
      | .ok _ => (.ok (), [.clearValues t])
      | .error e => (.error e, [.clearValues t]))

/-- Embedding of `GoogleDriveClient.clearTabName`: the whole try-block is
wrapped in a catch that logs the failure and silently ignores it, so the
method never propagates an error. -/
def clearTabName (tabName : Option String)
    (getSpreadsheetResp : Except RawProviderError (Option String))
    (clearResp : Except RawProviderError Unit) : ClearOutcome :=
  match clearTabNameInner tabName getSpreadsheetResp clearResp with
  | (.ok _, ops) => { ops := ops, loggedClearError := false }
  | (.error _, ops) => { ops := ops, loggedClearError := true }

/-- Model of JavaScript `array.indexOf(a)`: the zero-based index of the
first occurrence, or -1 when absent. -/
def jsIndexOfAux (a : String) : List String → Int → Int
  | [], _ => -1
  | b :: bs, i => if b = a then i else jsIndexOfAux a bs (i + 1)

/-- Model of `columnOrder.indexOf(a)`. -/
def jsIndexOf (l : List String) (a : String) : Int := jsIndexOfAux a l 0

/-- Stable insertion used to model JavaScript's stable
`sort((a, b) => columnOrder.indexOf(a) - columnOrder.indexOf(b))`: an
element is placed before the first strictly larger key, hence after
every earlier element with an equal key. -/
def insertByKey (key : String → Int) (a : String) : List String → List String
  | [] => [a]
  | b :: bs => if key a ≤ key b then a :: b :: bs else b :: insertByKey key a bs

/-- Stable sort by a key, modelling the comparator-based JavaScript sort. -/
def sortByKey (key : String → Int) : List String → List String
  | [] => []
  | a :: as => insertByKey key a (sortByKey key as)

/-- Embedding of the `sortedFieldIds` computation of `appendToSheet`: the
keys of the first row, stably sorted by their position in `columnOrder`
(absent keys compare as -1, hence first), with hidden fields removed. -/
def sortedFieldIds (firstRowKeys : List String) (columnOrder : List String)
    (hiddenFields : List String) : List String :=
  (sortByKey (jsIndexOf columnOrder) firstRowKeys).filter
    (fun id => !(hiddenFields.contains id))

/-- Embedding of the per-column header computation of `appendToSheet`: a
truthy custom label wins, then the label derived from the item map entry
(with or without the table name), then the raw field identifier. -/
def headerLabel (env : ExternalFns) (showTableNames : Bool)
    (itemMap : String → Option Item) (customLabels : String → Option String)
    (id : String) : String :=
  if truthyOptStr (customLabels id) then (customLabels id).getD ""
  else
    match itemMap id with
    | some item =>
      if showTableNames then env.getItemLabel item
      else env.getItemLabelWithoutTableName item
    | none => id

/-- Embedding of the `csvHeader` computation of `appendToSheet`. -/
def csvHeader (env : ExternalFns) (showTableNames : Bool)
    (itemMap : String → Option Item) (customLabels : String → Option String)
    (ids : List String) : List String :=
  ids.map (headerLabel env showTableNames itemMap customLabels)

/-- Model of `row[fieldId]`: a missing key reads as undefined. -/
def jsLookup (row : List (String × JsValue)) (fieldId : String) : JsValue :=
  match row.lookup fieldId with
  | some v => v
  | none => .undefValue

/-- Embedding of `GoogleDriveClient.appendCsvToSheet`, parameterized by the
provider's responses. After the enabled and emptiness guards it obtains
credentials (a failure there is a ForbiddenError), creates the tab when a
tab name was given, clears the sheet (failures there are swallowed by
`clearTabName`), and uploads the value grid. The returned list records the
provider operations issued; the `addSheet` entry stands for the
`batchUpdate` request issued inside `createNewTab`. -/
def appendCsvToSheet (isEnabled credentialsFail : Bool)
    (results : List (List JsValue)) (tabName : Option String)
    (createTabResp : Except RawProviderError Unit)
    (getSpreadsheetResp : Except RawProviderError (Option String))
    (clearResp : Except RawProviderError Unit)
    (updateResp : Except RawProviderError Unit) :
    Except GDriveError (List ProviderOp) :=
  if !isEnabled then .error (.missingConfig "Google Drive is not enabled")
  else if results.isEmpty then .ok []
  else if credentialsFail then .error (.forbidden "Failed to get credentials")
  else
    match tabName with
    | some t =>
      (match createNewTab isEnabled t createTabResp with
        | .error e => .error e
        | .ok sanitized =>
          (match catchForbiddenError updateResp with
            | .error e => .error e
            | .ok _ =>
              .ok ([.addSheet sanitized]
                ++ (clearTabName tabName getSpreadsheetResp clearResp).ops
                ++ [.updateValues (sanitized ++ "!A1") results])))
    | none =>
      (match catchForbiddenError updateResp with
        | .error e => .error e
        | .ok _ =>
          .ok ((clearTabName none getSpreadsheetResp clearResp).ops
            ++ [.updateValues "A1" results]))

/-- Embedding of `GoogleDriveClient.appendToSheet`: after the enabled and
emptiness guards it derives the written columns from the first row's keys,
builds the header labels and the formatted value grid, and delegates the
upload to `appendCsvToSheet` with the header row prepended. -/
def appendToSheet (env : ExternalFns) (isEnabled credentialsFail : Bool)
    (csvContent : List (List (String × JsValue)))
    (itemMap : String → Option Item) (showTableNames : Bool)
    (tabName : Option String) (columnOrder : List String)
    (customLabels : String → Option String) (hiddenFields : List String)
    (createTabResp : Except RawProviderError Unit)
    (getSpreadsheetResp : Except RawProviderError (Option String))
    (clearResp : Except RawProviderError Unit)
    (updateResp : Except RawProviderError Unit) :
    Except GDriveError (List ProviderOp) :=
  if !isEnabled then .error (.missingConfig "Google Drive is not enabled")
  else
    match csvContent with
    | [] => .ok []
    | firstRow :: _ =>
      (let ids := sortedFieldIds (firstRow.map Prod.fst) columnOrder hiddenFields
      let header := csvHeader env showTableNames itemMap customLabels ids
      let values := csvContent.map (fun row =>
        ids.map (fun fieldId => formatCell env (jsLookup row fieldId) (itemMap fieldId)))
      appendCsvToSheet isEnabled credentialsFail
        ((header.map (fun s => JsValue.prim (.str s))) :: values) tabName
        createTabResp getSpreadsheetResp clearResp updateResp)

/-- Date granularities of the date-zoom feature (non-empty enum strings,
hence always truthy in JavaScript). -/
inductive DateGranularity
  | hour
  | day
  | week
  | month
  | quarter
  | year
deriving DecidableEq

/-- Metric query as carried by the hooks; its payload is opaque to the
dispatch and key logic, which only forward it. -/
structure MetricQuery where
  payload : List String
  timezone : Option String
deriving DecidableEq

/-- Result rows: records mapping field identifiers to values. -/
abbrev ResultRow := List (String × JsValue)

/-- Request configuration consumed by `useQueryResults`. -/
structure QueryResultsProps where
  projectUuid : String
  tableId : String
  query : Option MetricQuery
  csvLimit : Option (Option Int)
  chartUuid : Option String
  chartVersionUuid : Option String
  dateZoomGranularity : Option DateGranularity
  context : Option String
deriving DecidableEq

/-- Retrieval paths the `useQueryResults` query function may take, in the
priority order of its conditional chain. -/
inductive RetrievalPath
  | chartVersionResults (chartUuid versionUuid : String)
  | chartResults (chartUuid : String) (context : Option String)
  | paginatedQuery (projectUuid : String)
  | runQueryResults (projectUuid tableId : String)
deriving DecidableEq

/-- Embedding of the query function of `useQueryResults`: chart with an
explicit version first, then chart alone, then the ad-hoc metric query
(paginated or single-shot by the feature flag), otherwise a rejected
promise carrying a ParameterError and no request at all. -/
def queryFnDispatch (queryPaginationEnabled : Bool) (data : QueryResultsProps) :
    Except String RetrievalPath :=
  if truthyOptStr data.chartUuid && truthyOptStr data.chartVersionUuid then
    .ok (.chartVersionResults (data.chartUuid.getD "") (data.chartVersionUuid.getD ""))
  else if truthyOptStr data.chartUuid then
    .ok (.chartResults (data.chartUuid.getD "") data.context)
  else
    match data.query with
    | some _ =>
      if queryPaginationEnabled then .ok (.paginatedQuery data.projectUuid)
      else .ok (.runQueryResults data.projectUuid data.tableId)
    | none => .error "Missing QueryResultsProps"

/-- URL of the single network request a retrieval path issues, as built by
the corresponding fetch helper in the source. -/
def retrievalUrl : RetrievalPath → String
  | .chartVersionResults c v => "/saved/" ++ c ++ "/version/" ++ v ++ "/results"
  | .chartResults c ctx =>
    "/saved/" ++ c ++ "/results" ++
      (match ctx with
        | some s => if s ≠ "" then "?context=" ++ s else ""
        | none => "")
  | .paginatedQuery p => "/projects/" ++ p ++ "/query"
  | .runQueryResults p t => "/projects/" ++ p ++ "/explores/" ++ t ++ "/runQuery"

/-- Network calls issued by a dispatch outcome: one request for a selected
path, none for the rejected ParameterError. -/
def networkCalls (r : Except String RetrievalPath) : List String :=
  match r with
  | .error _ => []
  | .ok p => [retrievalUrl p]

/-- One page of the versioned paginated query endpoint
(`ApiPaginatedQueryResults`). -/
structure PaginatedPage where
  queryUuid : String
  rows : List ResultRow
  fields : List (String × Item)
  metricQuery : MetricQuery
  nextPage : Option Nat

/-- Aggregated result returned by `getQueryPaginatedResults`. -/
structure AggregatedResults where
  queryUuid : String
  metricQuery : MetricQuery
  cacheHit : Bool
  rows : List ResultRow
  fields : List (String × Item)

/-- Embedding of the while loop of `getQueryPaginatedResults`: while the
current page carries a truthy `nextPage` token, the next follow-up response
is consumed and its rows are appended to the accumulator. `laterPages` is
the sequence of follow-up responses the server returns to the requests
`(queryUuid, currentPage.nextPage)`. -/
def paginationLoop : PaginatedPage → List PaginatedPage → List ResultRow → List ResultRow
  | currentPage, laterPages, allRows =>
    if truthyOptNat currentPage.nextPage then
      match laterPages with
      | [] => allRows
      | p :: ps => paginationLoop p ps (allRows ++ p.rows)
    else allRows
termination_by _ laterPages _ => laterPages.length

/-- Well-formedness of a response sequence of N pages: every page except
the last carries a truthy next-page token and the last does not, so the
loop consumes exactly these pages in order. -/
def chainedPages : PaginatedPage → List PaginatedPage → Bool
  | p, [] => !(truthyOptNat p.nextPage)
  | p, q :: qs => truthyOptNat p.nextPage && chainedPages q qs

/-- Embedding of `getQueryPaginatedResults`: the first page is fetched, the
loop aggregates the follow-up pages' rows, and the result echoes the first
page's queryUuid, metric query and field map with cacheHit hard-coded to
false. -/
def getQueryPaginatedResults (firstPage : PaginatedPage)
    (laterPages : List PaginatedPage) : AggregatedResults where
  queryUuid := firstPage.queryUuid
  metricQuery := firstPage.metricQuery
  cacheHit := false
  rows := paginationLoop firstPage laterPages firstPage.rows
  fields := firstPage.fields

/-- Dashboard filters as carried into the cache key (opaque payload). -/
structure DashboardFilters where
  payload : List String
deriving DecidableEq

/-- Sort directive of a dashboard (`SortField`). -/
structure SortField where
  fieldId : String
  descending : Bool
deriving DecidableEq

/-- Components of the react-query cache key built by `useChartAndResults`. -/
inductive KeyPart
  | tag (s : String)
  | chart (c : Option String)
  | dashboard (d : Option String)
  | filters (f : DashboardFilters)
  | invalidate (b : Option Bool)
  | sortKey (s : String)
  | autoRefresh (b : Option Bool)
  | granularity (g : DateGranularity)
deriving DecidableEq

/-- Embedding of the `sortKey` computation:
`dashboardSorts.map(ds => fieldId + '.' + descending).join(',') || ''`. -/
def dashboardSortKey (sorts : List SortField) : String :=
  String.intercalate ","
    (sorts.map (fun ds => ds.fieldId ++ "." ++ (if ds.descending then "true" else "false")))

/-- Embedding of the base `queryKey` memo of `useChartAndResults`. -/
def chartAndResultsBaseKey (chartUuid dashboardUuid : Option String)
    (dashboardFilters : DashboardFilters) (invalidateCache : Option Bool)
    (dashboardSorts : List SortField) (autoRefresh : Option Bool) : List KeyPart :=
  [.tag "savedChartResults", .chart chartUuid, .dashboard dashboardUuid,
    .filters dashboardFilters, .invalidate invalidateCache,
    .sortKey (dashboardSortKey dashboardSorts), .autoRefresh autoRefresh]

/-- Embedding of the key passed to `useQuery` by `useChartAndResults`:
`hasADateDimension && granularity ? queryKey.concat([granularity]) : queryKey`
(granularity enum values are non-empty strings, hence truthy when present). -/
def effectiveQueryKey (hasADateDimension : Bool) (granularity : Option DateGranularity)
    (base : List KeyPart) : List KeyPart :=
  match granularity with
  | some g => if hasADateDimension then base ++ [.granularity g] else base
  | none => base

/-- Model of `set.add(c)` on a JavaScript Set kept in insertion order. -/
def jsSetAdd (s : List String) (c : String) : List String :=
  if s.contains c then s else s ++ [c]

/-- Embedding of the updater passed to `setChartsWithDateZoomApplied`: with
a date dimension and a granularity the chart is added to the set (a missing
set is created first); with a date dimension and no granularity an existing
set is cleared in place (a missing set stays missing); without a date
dimension the set is returned untouched. -/
def updateDateZoomSet (hasADateDimension : Bool) (granularity : Option DateGranularity)
    (chartUuid : String) (prev : Option (List String)) : Option (List String) :=
  if hasADateDimension then
    match granularity with
    | some _ => some (jsSetAdd (prev.getD []) chartUuid)
    | none =>
      match prev with
      | some _ => some []
      | none => none
  else prev

/-- Options record handed to `useQuery`, as far as the claims inspect it.
A `none` in `retry` or `refetchOnMount` means the option is omitted and the
query library's default applies. -/
structure UseQueryOptionsModel (κ : Type) where
  queryKey : κ
  enabled : Bool
  retry : Option Bool
  refetchOnMount : Option Bool

/-- Embedding of the `useQuery` options built by `useUnderlyingDataResults`:
key `['underlyingDataResults', projectUuid, JSON.stringify(query)]`, with
`retry: false` and no other option set. -/
def useUnderlyingDataResultsOptions (env : ExternalFns) (projectUuid : Option String)
    (query : MetricQuery) : UseQueryOptionsModel (List (Option String)) where
  queryKey := [some "underlyingDataResults", projectUuid,
    some (env.stringifyMetricQuery query.payload)]
  enabled := true
  retry := some false
  refetchOnMount := none

/-- Embedding of the `useQuery` options built by `useChartAndResults`:
the date-zoom-aware key, `enabled: !!chartUuid && !!dashboardUuid`,
`retry: false` and `refetchOnMount: false`. -/
def useChartAndResultsOptions (chartUuid dashboardUuid : Option String)
    (dashboardFilters : DashboardFilters) (invalidateCache : Option Bool)
    (dashboardSorts : List SortField) (autoRefresh : Option Bool)
    (hasADateDimension : Bool) (granularity : Option DateGranularity) :
    UseQueryOptionsModel (List KeyPart) where
  queryKey := effectiveQueryKey hasADateDimension granularity
    (chartAndResultsBaseKey chartUuid dashboardUuid dashboardFilters invalidateCache
      dashboardSorts autoRefresh)
  enabled := truthyOptStr chartUuid && truthyOptStr dashboardUuid
  retry := some false
  refetchOnMount := some false

/-- Embedding of the `useQuery` options built by `useQueryResults`: key
`['query-all-results', data]`, `enabled: !!data`, and no retry or
refetch option set. -/
def useQueryResultsOptions (data : Option QueryResultsProps) :
    UseQueryOptionsModel (String × Option QueryResultsProps) where
  queryKey := ("query-all-results", data)
  enabled := data.isSome
  retry := none
  refetchOnMount := none

/-- Embedding of the error effect of `useQueryResults`: whenever the query
result carries an error it is forwarded to `setErrorResponse` (the shared
error-reporting channel); without an error nothing is reported. -/
def queryResultsErrorEffect (error : Option String) : List String :=
  match error with
  | some e => [e]
  | none => []

/-- Helper: over a well-chained follow-up sequence the pagination loop
appends the pages' rows, in page order, to the accumulator. -/
theorem paginationLoop_concat (laterPages : List PaginatedPage) :
    ∀ (p : PaginatedPage) (acc : List ResultRow), chainedPages p laterPages = true →
      paginationLoop p laterPages acc
        = acc ++ (laterPages.map (fun q => q.rows)).flatten := by
  induction laterPages with
  | nil =>
    intro p acc h
    simp only [chainedPages, Bool.not_eq_true'] at h
    simp [paginationLoop, h]
  | cons q qs ih =>
    intro p acc h
    simp only [chainedPages, Bool.and_eq_true] at h
    obtain ⟨h1, h2⟩ := h
    have step : paginationLoop p (q :: qs) acc = paginationLoop q qs (acc ++ q.rows) := by
      simp [paginationLoop, h1]
    rw [step, ih q (acc ++ q.rows) h2]
    simp

/-- Claim C1: for every paginated execution of N pages (a first page plus a
well-chained follow-up sequence), `getQueryPaginatedResults` returns the
concatenation of the pages' rows in page order, echoes the first page's
field map, metric query and queryUuid, and always reports cacheHit as
false. -/
theorem getQueryPaginatedResults_spec (firstPage : PaginatedPage)
    (laterPages : List PaginatedPage)
    (h : chainedPages firstPage laterPages = true) :
    (getQueryPaginatedResults firstPage laterPages).rows
        = ((firstPage :: laterPages).map (fun q => q.rows)).flatten
      ∧ (getQueryPaginatedResults firstPage laterPages).fields = firstPage.fields
      ∧ (getQueryPaginatedResults firstPage laterPages).metricQuery = firstPage.metricQuery
      ∧ (getQueryPaginatedResults firstPage laterPages).queryUuid = firstPage.queryUuid
      ∧ (getQueryPaginatedResults firstPage laterPages).cacheHit = false := by
  refine ⟨?_, rfl, rfl, rfl, rfl⟩
  simp [getQueryPaginatedResults, paginationLoop_concat laterPages firstPage firstPage.rows h]

/-- First page of a concrete two-page execution. -/
def pageOne : PaginatedPage where
  queryUuid := "query-1"
  rows := [[("x", JsValue.prim (Prim.num 1))]]
  fields := [("x", Item.dimension DimensionType.number none)]
  metricQuery := { payload := ["m"], timezone := none }
  nextPage := some 2

/-- Second and last page of a concrete two-page execution. -/
def pageTwo : PaginatedPage where
  queryUuid := "query-1"
  rows := [[("x", JsValue.prim (Prim.num 2))], [("x", JsValue.prim (Prim.num 3))]]
  fields := [("x", Item.dimension DimensionType.number none)]
  metricQuery := { payload := ["m"], timezone := none }
  nextPage := none

/-- Witness for claim C1 on a concrete two-page execution. -/
theorem getQueryPaginatedResults_spec_witness :
    chainedPages pageOne [pageTwo] = true
      ∧ ((getQueryPaginatedResults pageOne [pageTwo]).rows
            = ((pageOne :: [pageTwo]).map (fun q => q.rows)).flatten
          ∧ (getQueryPaginatedResults pageOne [pageTwo]).fields = pageOne.fields
          ∧ (getQueryPaginatedResults pageOne [pageTwo]).metricQuery = pageOne.metricQuery
          ∧ (getQueryPaginatedResults pageOne [pageTwo]).queryUuid = pageOne.queryUuid
          ∧ (getQueryPaginatedResults pageOne [pageTwo]).cacheHit = false) :=
  ⟨rfl, getQueryPaginatedResults_spec pageOne [pageTwo] rfl⟩

/-- Claim C2: the query function of `useQueryResults` selects exactly one
retrieval path in priority order — chart with explicit version, then chart
alone, then the ad-hoc query (paginated or single-shot by the feature
flag) — and a request lacking all three identifying fields yields the
ParameterError rejection and issues no network call. -/
theorem useQueryResults_dispatch_spec (flag : Bool) (data : QueryResultsProps) :
    (truthyOptStr data.chartUuid = true → truthyOptStr data.chartVersionUuid = true →
        queryFnDispatch flag data
          = .ok (.chartVersionResults (data.chartUuid.getD "") (data.chartVersionUuid.getD "")))
      ∧ (truthyOptStr data.chartUuid = true → truthyOptStr data.chartVersionUuid = false →
          queryFnDispatch flag data = .ok (.chartResults (data.chartUuid.getD "") data.context))
      ∧ (∀ (q : MetricQuery), truthyOptStr data.chartUuid = false → data.query = some q →
          queryFnDispatch flag data
            = .ok (if flag then .paginatedQuery data.projectUuid
                else .runQueryResults data.projectUuid data.tableId))
      ∧ (truthyOptStr data.chartUuid = false → data.query = none →
          queryFnDispatch flag data = .error "Missing QueryResultsProps"
            ∧ networkCalls (queryFnDispatch flag data) = []) := by
  refine ⟨?_, ?_, ?_, ?_⟩
  · intro h1 h2
    simp [queryFnDispatch, h1, h2]
  · intro h1 h2
    simp [queryFnDispatch, h1, h2]
  · intro q h1 h2
    cases flag <;> simp [queryFnDispatch, h1, h2]
  · intro h1 h2
    have hd : queryFnDispatch flag data = .error "Missing QueryResultsProps" := by
      simp [queryFnDispatch, h1, h2]
    exact ⟨hd, by rw [hd]; rfl⟩

/-- Request configuration carrying none of the three identifying fields. -/
def emptyProps : QueryResultsProps where
  projectUuid := "proj"
  tableId := "tbl"
  query := none
  csvLimit := none
  chartUuid := none
  chartVersionUuid := none
  dateZoomGranularity := none
  context := none

/-- Witness for claim C2 on a concrete request lacking all three
identifying fields. -/
theorem useQueryResults_dispatch_spec_witness :
    queryFnDispatch true emptyProps = .error "Missing QueryResultsProps"
      ∧ networkCalls (queryFnDispatch true emptyProps) = [] :=
  (useQueryResults_dispatch_spec true emptyProps).2.2.2 rfl rfl

/-- Claim C3 (counterexample): a call whose metadata reports no date
dimension leaves the tracking set untouched — with prior contents
`{"chartB"}` the set afterwards is still `{"chartB"}`, not empty, so a
zero-date-dimension result does not clear the set. -/
theorem dateZoom_clear_counterexample :
    updateDateZoomSet false none "chartA" (some ["chartB"]) = some ["chartB"]
      ∧ some ["chartB"] ≠ some ([] : List String) :=
  ⟨rfl, by simp⟩

/-- Claim C3 (amended): when the fetched metadata reports no date
dimension the updater returns the tracking set unchanged, whatever its
prior contents; the set is cleared (when it exists) exactly when a date
dimension is present and no granularity override is supplied. -/
theorem updateDateZoomSet_spec :
    (∀ (g : Option DateGranularity) (c : String) (prev : Option (List String)),
        updateDateZoomSet false g c prev = prev)
      ∧ (∀ (c : String) (s : List String),
          updateDateZoomSet true none c (some s) = some [])
      ∧ (∀ (c : String), updateDateZoomSet true none c none = none) :=
  ⟨fun _ _ _ => rfl, fun _ _ => rfl, fun _ => rfl⟩

/-- Helper: a JavaScript Set contains an element right after adding it. -/
theorem jsSetAdd_contains (s : List String) (c : String) :
    (jsSetAdd s c).contains c = true := by
  by_cases h : s.contains c <;> simp_all [jsSetAdd]

/-- Claim C4: with a date dimension and a granularity override the chart's
identifier is in the tracking set after the update and the cache key is the
base key extended with the granularity; without a granularity override the
key is the base key, which contains no granularity component at all, and
with no date dimension two requests differing only in their granularity
produce the same key. -/
theorem useChartAndResults_dateZoom_cacheKey_spec :
    (∀ (g : DateGranularity) (c : String) (prev : Option (List String)),
        ((updateDateZoomSet true (some g) c prev).getD []).contains c = true)
      ∧ (∀ (hd : Bool) (base : List KeyPart), effectiveQueryKey hd none base = base)
      ∧ (∀ (g : DateGranularity) (base : List KeyPart),
          effectiveQueryKey true (some g) base = base ++ [KeyPart.granularity g])
      ∧ (∀ (g : DateGranularity) (chartUuid dashboardUuid : Option String)
            (f : DashboardFilters) (ic : Option Bool) (ds : List SortField)
            (ar : Option Bool),
          KeyPart.granularity g
            ∈ effectiveQueryKey true (some g)
                (chartAndResultsBaseKey chartUuid dashboardUuid f ic ds ar))
      ∧ (∀ (g : DateGranularity) (chartUuid dashboardUuid : Option String)
            (f : DashboardFilters) (ic : Option Bool) (ds : List SortField)
            (ar : Option Bool),
          KeyPart.granularity g
            ∉ chartAndResultsBaseKey chartUuid dashboardUuid f ic ds ar)
      ∧ (∀ (g1 g2 : Option DateGranularity) (base : List KeyPart),
          effectiveQueryKey false g1 base = effectiveQueryKey false g2 base) := by
  refine ⟨?_, ?_, ?_, ?_, ?_, ?_⟩
  · intro g c prev
    simp only [updateDateZoomSet, Option.getD_some]
    exact jsSetAdd_contains (prev.getD []) c
  · intro hd base
    rfl
  · intro g base
    rfl
  · intro g chartUuid dashboardUuid f ic ds ar
    simp [effectiveQueryKey, chartAndResultsBaseKey]
  · intro g chartUuid dashboardUuid f ic ds ar
    simp [chartAndResultsBaseKey]
  · intro g1 g2 base
    cases g1 <;> cases g2 <;> rfl

/-- Claim C5: `formatCell` maps an array of two strings to their
comma-joined string, a value of a date-typed dimension through the external
date formatter with the dimension's time interval, a non-date plain object
to its JSON string, and a boxed primitive wrapper to its unwrapped
primitive value. -/
theorem formatCell_spec :
    (∀ (env : ExternalFns) (item : Option Item) (a b : String),
        formatCell env (.arr [.prim (.str a), .prim (.str b)]) item
          = .prim (.str (a ++ "," ++ b)))
      ∧ (∀ (env : ExternalFns) (v : JsValue) (ti : Option String),
          formatCellEarlyReturn v = false →
            formatCell env v (some (.dimension .date ti))
              = .prim (.str (env.formatDate v ti)))
      ∧ (∀ (env : ExternalFns) (kvs : List (String × JsValue)) (item : Option Item),
          isDateField item = false →
            formatCell env (.obj kvs) item = .prim (.str (env.jsonStringify kvs)))
      ∧ (∀ (env : ExternalFns) (p : Prim) (item : Option Item),
          isDateField item = false →
            formatCell env (.boxed p) item = .prim p) := by
  refine ⟨?_, ?_, ?_, ?_⟩
  · intro env item a b
    simp [formatCell, jsJoinList, jsToStringForJoin]
  · intro env v ti h
    cases v <;> simp_all [formatCell, formatCellEarlyReturn, isDateField, itemTimeInterval]
  · intro env kvs item h
    simp [formatCell, h]
  · intro env p item h
    simp [formatCell, h]

/-- Witness for claim C5 at concrete inputs, with the external functions
instantiated by `defaultFns`. -/
theorem formatCell_spec_witness :
    formatCell defaultFns (.arr [.prim (.str "a"), .prim (.str "b")]) none
        = .prim (.str ("a" ++ "," ++ "b"))
      ∧ (formatCellEarlyReturn (.prim (.num 7)) = false
          ∧ formatCell defaultFns (.prim (.num 7)) (some (.dimension .date (some "DAY")))
              = .prim (.str (defaultFns.formatDate (.prim (.num 7)) (some "DAY"))))
      ∧ (isDateField (some .tableCalculation) = false
          ∧ formatCell defaultFns (.obj [("k", .prim (.num 1))]) (some .tableCalculation)
              = .prim (.str (defaultFns.jsonStringify [("k", .prim (.num 1))])))
      ∧ (isDateField none = false
          ∧ formatCell defaultFns (.boxed (.num 5)) none = .prim (.num 5)) :=
  ⟨formatCell_spec.1 defaultFns none "a" "b",
    ⟨rfl, formatCell_spec.2.1 defaultFns (.prim (.num 7)) (some "DAY") rfl⟩,
    ⟨rfl, formatCell_spec.2.2.1 defaultFns [("k", .prim (.num 1))] (some .tableCalculation) rfl⟩,
    ⟨rfl, formatCell_spec.2.2.2 defaultFns (.num 5) none rfl⟩⟩

/-- Concrete 401 provider response. -/
def resp401 : RawProviderError where
  status := some 401
  errorCode := some "unauthorized"
  errorDescription := some "expired token"
  messages := []

/-- Concrete 500 provider response. -/
def resp500 : RawProviderError where
  status := some 500
  errorCode := none
  errorDescription := none
  messages := ["Internal error encountered."]

/-- Claim C6 (counterexample): a 401 during tab creation does not surface
as an authorization error — the translated ForbiddenError carries no `code`
property, so `createNewTab`'s catch handler silently swallows it and the
call returns the tab title as if it had succeeded. -/
theorem createNewTab_401_counterexample :
    createNewTab true "mytab" (Except.error resp401) = Except.ok "mytab" :=
  rfl

/-- Claim C6 (amended): the shared `catchForbiddenError` wrapper translates
every 401 response into a ForbiddenError (so operations without a handler
of their own surface it to the caller); during tab creation the translated
ForbiddenError is swallowed and the call reports success, while a 500
during tab creation surfaces as the transient error, an error kind distinct
from the authorization error. -/
theorem googleDrive_error_translation_spec :
    (∀ (α : Type) (e : RawProviderError), e.status = some 401 →
        @catchForbiddenError α (Except.error e)
          = Except.error (GDriveError.forbidden ("Failed to authorize: "
              ++ e.errorCode.getD "undefined" ++ ": " ++ e.errorDescription.getD "undefined")))
      ∧ (∀ (tabName : String) (e : RawProviderError), e.status = some 500 →
          createNewTab true tabName (Except.error e) = Except.error GDriveError.transient)
      ∧ (∀ (tabName : String) (e : RawProviderError), e.status = some 401 →
          createNewTab true tabName (Except.error e) = Except.ok (sanitizeTabName tabName))
      ∧ (∀ (msg : String), GDriveError.forbidden msg ≠ GDriveError.transient) := by
  refine ⟨?_, ?_, ?_, ?_⟩
  · intro α e h
    simp [catchForbiddenError, h]
  · intro tabName e h
    simp [createNewTab, catchForbiddenError, h, tabExistsBranch, GDriveError.jsCode]
  · intro tabName e h
    simp [createNewTab, catchForbiddenError, h, tabExistsBranch, GDriveError.jsCode]
  · intro msg h
    exact GDriveError.noConfusion h

/-- Witness for claim C6 (amended) at concrete responses. -/
theorem googleDrive_error_translation_spec_witness :
    (resp401.status = some 401
      ∧ @catchForbiddenError Unit (Except.error resp401)
          = Except.error (GDriveError.forbidden ("Failed to authorize: "
              ++ resp401.errorCode.getD "undefined" ++ ": "
              ++ resp401.errorDescription.getD "undefined")))
      ∧ (resp500.status = some 500
          ∧ createNewTab true "tab:1" (Except.error resp500) = Except.error GDriveError.transient)
      ∧ (resp401.status = some 401
          ∧ createNewTab true "othertab" (Except.error resp401)
              = Except.ok (sanitizeTabName "othertab"))
      ∧ GDriveError.forbidden "x" ≠ GDriveError.transient :=
  ⟨⟨rfl, googleDrive_error_translation_spec.1 Unit resp401 rfl⟩,
    ⟨rfl, googleDrive_error_translation_spec.2.1 "tab:1" resp500 rfl⟩,
    ⟨rfl, googleDrive_error_translation_spec.2.2.1 "othertab" resp401 rfl⟩,
    googleDrive_error_translation_spec.2.2.2 "x"⟩

/-- Claim C7 (counterexample): `useQueryResults` passes no `retry` option
to the query library — its options leave retry unset, unlike the other two
hooks which pass `retry: false` — so the library's default retry policy
(which retries failed queries) governs it and the hook is not
retry-suppressed by this code. -/
theorem useQueryResults_retry_counterexample :
    (useQueryResultsOptions (some emptyProps)).retry = none
      ∧ (useQueryResultsOptions (some emptyProps)).retry ≠ some false :=
  ⟨rfl, by simp [useQueryResultsOptions]⟩

/-- Claim C7 (amended): `useChartAndResults` and `useUnderlyingDataResults`
disable automatic retry via `retry: false`; `useQueryResults` leaves the
retry option unset, deferring to the query library's default; failures of
`useQueryResults` are forwarded to the shared error-reporting channel by
its error effect. -/
theorem queryHooks_retry_spec :
    (∀ (env : ExternalFns) (p : Option String) (q : MetricQuery),
        (useUnderlyingDataResultsOptions env p q).retry = some false)
      ∧ (∀ (c d : Option String) (f : DashboardFilters) (ic : Option Bool)
            (ds : List SortField) (ar : Option Bool) (hd : Bool)
            (g : Option DateGranularity),
          (useChartAndResultsOptions c d f ic ds ar hd g).retry = some false
            ∧ (useChartAndResultsOptions c d f ic ds ar hd g).refetchOnMount = some false)
      ∧ (∀ (data : Option QueryResultsProps), (useQueryResultsOptions data).retry = none)
      ∧ (∀ (e : String), queryResultsErrorEffect (some e) = [e])
      ∧ queryResultsErrorEffect none = [] :=
  ⟨fun _ _ _ => rfl, fun _ _ _ _ _ _ _ _ => ⟨rfl, rfl⟩, fun _ => rfl, fun _ => rfl, rfl⟩

/-- Helper: the wrapper maps a failed request to some error in every
case. -/
theorem catchForbiddenError_error (α : Type) (e : RawProviderError) :
    ∃ e', @catchForbiddenError α (Except.error e) = Except.error e' := by
  simp only [catchForbiddenError]
  split
  · exact ⟨_, rfl⟩
  · split
    · exact ⟨_, rfl⟩
    · exact ⟨_, rfl⟩

/-- Helper: the provider operations issued by `clearTabName` do not depend
on the outcome of the clear request. -/
theorem clearTabName_ops_const (t : Option String) (g : Except RawProviderError (Option String))
    (r1 r2 : Except RawProviderError Unit) :
    (clearTabName t g r1).ops = (clearTabName t g r2).ops := by
  cases t with
  | none =>
    cases hg : @catchForbiddenError (Option String) g with
    | error e => simp [clearTabName, clearTabNameInner, hg]
    | ok fsn =>
      by_cases ht : truthyOptStr fsn = true
      · cases h1 : @catchForbiddenError Unit r1 <;> cases h2 : @catchForbiddenError Unit r2 <;>
          simp [clearTabName, clearTabNameInner, hg, ht, h1, h2]
      · simp [clearTabName, clearTabNameInner, hg, ht]
  | some t' =>
    cases h1 : @catchForbiddenError Unit r1 <;> cases h2 : @catchForbiddenError Unit r2 <;>
      simp [clearTabName, clearTabNameInner, h1, h2]

/-- Claim C8: a tab-already-exists response (a 400 whose message mentions
the requested tab) is swallowed by `createNewTab`, which returns the tab
title so the overwrite proceeds; a failure of the clear request is logged
by `clearTabName`'s catch-all and never propagated — the outcome of
`appendCsvToSheet` is entirely independent of the clear request's
response. -/
theorem tabExists_and_clearSwallow_spec :
    (∀ (tabName : String) (e : RawProviderError) (m : String),
        e.status = some 400 → e.messages.head? = some m → jsIncludes m tabName = true →
          createNewTab true tabName (Except.error e) = Except.ok (sanitizeTabName tabName))
      ∧ (∀ (t : String) (g : Except RawProviderError (Option String)) (e : RawProviderError),
          (clearTabName (some t) g (Except.error e)).loggedClearError = true)
      ∧ (∀ (isEnabled credentialsFail : Bool) (results : List (List JsValue))
            (tabName : Option String) (ct : Except RawProviderError Unit)
            (g : Except RawProviderError (Option String))
            (c1 c2 u : Except RawProviderError Unit),
          appendCsvToSheet isEnabled credentialsFail results tabName ct g c1 u
            = appendCsvToSheet isEnabled credentialsFail results tabName ct g c2 u) := by
  refine ⟨?_, ?_, ?_⟩
  · intro tabName e m h400 hm hinc
    by_cases hig : e.errorCode = some "invalid_grant"
    · simp [createNewTab, catchForbiddenError, h400, hig, tabExistsBranch, GDriveError.jsCode]
    · simp [createNewTab, catchForbiddenError, h400, hig, tabExistsBranch,
        GDriveError.jsCode, GDriveError.jsMessages, hm, hinc]
  · intro t g e
    obtain ⟨e', he'⟩ := catchForbiddenError_error Unit e
    simp [clearTabName, clearTabNameInner, he']
  · intro isEnabled credentialsFail results tabName ct g c1 c2 u
    cases tabName with
    | some t => simp only [appendCsvToSheet, clearTabName_ops_const (some t) g c1 c2]
    | none => simp only [appendCsvToSheet, clearTabName_ops_const none g c1 c2]

/-- Concrete tab-already-exists response from the batchUpdate request. -/
def respTabExists : RawProviderError where
  status := some 400
  errorCode := none
  errorDescription := none
  messages := ["A sheet with the name Sheet:1 already exists"]

/-- Witness for claim C8 at concrete responses. -/
theorem tabExists_and_clearSwallow_spec_witness :
    (respTabExists.status = some 400
      ∧ respTabExists.messages.head? = some "A sheet with the name Sheet:1 already exists"
      ∧ jsIncludes "A sheet with the name Sheet:1 already exists" "Sheet:1" = true
      ∧ createNewTab true "Sheet:1" (Except.error respTabExists)
          = Except.ok (sanitizeTabName "Sheet:1"))
      ∧ (clearTabName (some "data") (Except.ok (some "Sheet1"))
          (Except.error resp500)).loggedClearError = true :=
  ⟨⟨rfl, rfl, by decide,
      tabExists_and_clearSwallow_spec.1 "Sheet:1" respTabExists
        "A sheet with the name Sheet:1 already exists" rfl rfl (by decide)⟩,
    tabExists_and_clearSwallow_spec.2.1 "data" (Except.ok (some "Sheet1")) resp500⟩

/-- Helper: membership through the stable insertion step. -/
theorem mem_insertByKey (key : String → Int) (a z : String) (l : List String) :
    z ∈ insertByKey key a l ↔ z = a ∨ z ∈ l := by
  induction l with
  | nil => simp [insertByKey]
  | cons b bs ih =>
    by_cases h : key a ≤ key b <;> (simp [insertByKey, h, ih]; try tauto)

/-- Helper: the stable sort permutes its input, hence preserves
membership. -/
theorem mem_sortByKey (key : String → Int) (l : List String) (z : String) :
    z ∈ sortByKey key l ↔ z ∈ l := by
  induction l with
  | nil => simp [sortByKey]
  | cons a as ih => simp [sortByKey, mem_insertByKey, ih]

/-- Claim C9 (counterexample): a caller-supplied custom label that is the
empty string exists for the field yet is not used as the header — the
empty string is falsy, so the header falls back to the raw identifier. -/
theorem csvHeader_emptyLabel_counterexample :
    csvHeader defaultFns false (fun _ => none)
        (fun id => if id = "f1" then some "" else none)
        (sortedFieldIds ["f1"] [] []) = ["f1"]
      ∧ (fun id => if id = "f1" then some "" else none) "f1" = some ""
      ∧ ("f1" : String) ≠ "" := by
  refine ⟨rfl, rfl, by decide⟩

/-- Claim C9 (amended): a field identifier is among the written columns
exactly when it is a key of the first row and not hidden; the header label
is the caller-supplied custom label when a truthy (non-empty) one exists,
otherwise the label derived from the item map entry when one exists,
otherwise the raw identifier (an empty-string custom label is falsy and
falls through). -/
theorem appendToSheet_header_spec :
    (∀ (keys order hidden : List String) (z : String),
        z ∈ sortedFieldIds keys order hidden ↔ (z ∈ keys ∧ hidden.contains z = false))
      ∧ (∀ (env : ExternalFns) (sst : Bool) (itemMap : String → Option Item)
            (customLabels : String → Option String) (id s : String),
          customLabels id = some s → s ≠ "" →
            headerLabel env sst itemMap customLabels id = s)
      ∧ (∀ (env : ExternalFns) (sst : Bool) (itemMap : String → Option Item)
            (customLabels : String → Option String) (id : String) (item : Item),
          truthyOptStr (customLabels id) = false → itemMap id = some item →
            headerLabel env sst itemMap customLabels id
              = (if sst then env.getItemLabel item
                  else env.getItemLabelWithoutTableName item))
      ∧ (∀ (env : ExternalFns) (sst : Bool) (itemMap : String → Option Item)
            (customLabels : String → Option String) (id : String),
          truthyOptStr (customLabels id) = false → itemMap id = none →
            headerLabel env sst itemMap customLabels id = id) := by
  refine ⟨?_, ?_, ?_, ?_⟩
  · intro keys order hidden z
    simp [sortedFieldIds, List.mem_filter, mem_sortByKey]
  · intro env sst itemMap customLabels id s hs hne
    simp [headerLabel, truthyOptStr, hs, hne]
  · intro env sst itemMap customLabels id item hf hm
    simp [headerLabel, hf, hm]
  · intro env sst itemMap customLabels id hf hm
    simp [headerLabel, hf, hm]

/-- Witness for claim C9 (amended) at concrete inputs. -/
theorem appendToSheet_header_spec_witness :
    (("f2" ∈ sortedFieldIds ["f1", "f2"] ["f2", "f1"] ["f1"])
        ↔ ("f2" ∈ ["f1", "f2"] ∧ (["f1"] : List String).contains "f2" = false))
      ∧ ((fun id => if id = "f2" then some "Custom" else none) "f2" = some "Custom"
          ∧ ("Custom" : String) ≠ ""
          ∧ headerLabel defaultFns true (fun _ => none)
              (fun id => if id = "f2" then some "Custom" else none) "f2" = "Custom")
      ∧ (truthyOptStr ((fun _ => (none : Option String)) "f3") = false
          ∧ (fun _ => some Item.tableCalculation) "f3" = some Item.tableCalculation
          ∧ headerLabel defaultFns true (fun _ => some Item.tableCalculation)
              (fun _ => none) "f3"
              = (if true then defaultFns.getItemLabel Item.tableCalculation
                  else defaultFns.getItemLabelWithoutTableName Item.tableCalculation))
      ∧ (truthyOptStr ((fun _ => (none : Option String)) "f4") = false
          ∧ (fun _ => (none : Option Item)) "f4" = none
          ∧ headerLabel defaultFns false (fun _ => none) (fun _ => none) "f4" = "f4") :=
  ⟨appendToSheet_header_spec.1 ["f1", "f2"] ["f2", "f1"] ["f1"] "f2",
    ⟨rfl, by decide,
      appendToSheet_header_spec.2.1 defaultFns true (fun _ => none)
        (fun id => if id = "f2" then some "Custom" else none) "f2" "Custom" rfl (by decide)⟩,
    ⟨rfl, rfl,
      appendToSheet_header_spec.2.2.1 defaultFns true (fun _ => some Item.tableCalculation)
        (fun _ => none) "f3" Item.tableCalculation rfl rfl⟩,
    ⟨rfl, rfl,
      appendToSheet_header_spec.2.2.2 defaultFns false (fun _ => none) (fun _ => none)
        "f4" rfl rfl⟩⟩

/-- Claim C10: with the client enabled, `appendToSheet` on an empty row set
and `appendCsvToSheet` on an empty value grid return successfully having
issued no provider operation at all — no tab creation, no clearing, no
value upload — whatever the other arguments and provider responses are. -/
theorem appendToSheet_empty_noop_spec :
    (∀ (env : ExternalFns) (credentialsFail : Bool) (itemMap : String → Option Item)
        (sst : Bool) (tabName : Option String) (order : List String)
        (customLabels : String → Option String) (hidden : List String)
        (ct : Except RawProviderError Unit) (g : Except RawProviderError (Option String))
        (cl u : Except RawProviderError Unit),
        appendToSheet env true credentialsFail [] itemMap sst tabName order
            customLabels hidden ct g cl u = Except.ok [])
      ∧ (∀ (credentialsFail : Bool) (tabName : Option String)
            (ct : Except RawProviderError Unit)
            (g : Except RawProviderError (Option String))
            (cl u : Except RawProviderError Unit),
          appendCsvToSheet true credentialsFail [] tabName ct g cl u = Except.ok []) :=
  ⟨fun _ _ _ _ _ _ _ _ _ _ _ _ => rfl, fun _ _ _ _ _ _ => rfl⟩
